import Mathlib

/-!
# Verification of the MFA monitoring-worker analysis core

Shallow embedding, in Lean 4, of the risk-scoring core of the
`monitoring-worker` repository:

* `src/scoring/risk_engine.py` — `RiskEngine` (confidence-weighted
  aggregation, GAM-only fallback, inconclusive results);
* `src/crawlers/network_interceptor.py` — `NetworkInterceptor`
  (auto-refresh detection, suspicious patterns, 0–100 network risk score);
* `src/analyzers/ad_analyzer.py` — `AdAnalyzer` (density, pattern
  detection, 0–1 ad risk score, layout risk);
* `src/analyzers/viewability.py` — `ViewabilityChecker` (intersection
  ratio, MRC compliance);
* `src/analyzers/ad_heatmap.py` — risk-level mapping only.

Numbers are modelled by `ℚ` (the Python code computes with floats but all
constants are exact decimals and every claim is about exact arithmetic
relations).  Python dict `.get(key, default)` accesses of optional fields
are modelled by `Option` fields together with `Option.getD`.  Python
`round(x, k)` (used only to format output fields) is modelled by
`roundQ k`; Python rounds exact ties to even while `roundQ` rounds ties
up — the two agree everywhere except at exact ties, and no claim below
depends on a tie.
-/

/-- `round(x, k)`: round to `k` decimal places (ties upward). -/
def roundQ (k : ℕ) (x : ℚ) : ℚ := (⌊x * 10 ^ k + 1 / 2⌋ : ℚ) / 10 ^ k

namespace RiskEngine

/-- One row of historical GAM data, as read by
`RiskEngine._calculate_gam_risk`: `int(r.get("impressions", 0))`,
`int(r.get("clicks", 0))`, `float(r.get("revenue", 0))`. -/
structure GamRecord where
  impressions : ℤ
  clicks : ℤ
  revenue : ℚ
  deriving DecidableEq, Repr

/-- The fields of the content-analyzer result dict that
`RiskEngine._calculate_full_score` reads: `risk_score` (default `0.5`),
`word_count` (default `0`), and whether the `"error"` key is present. -/
structure ContentAnalysis where
  risk_score : Option ℚ
  word_count : Option ℕ
  has_error : Bool
  deriving DecidableEq, Repr

/-- The fields of the ad-analyzer result dict that the engine reads:
`risk_score` (default `0.5`) and `ad_count` (default `0`). -/
structure AdAnalysisIn where
  risk_score : Option ℚ
  ad_count : Option ℕ
  deriving DecidableEq, Repr

/-- The field of the technical-checker result dict that the engine reads:
`health_score` (default `50`). -/
structure TechnicalCheck where
  health_score : Option ℚ
  deriving DecidableEq, Repr

/-- A scoring component `{score, weight, confidence}` as built by
`_calculate_full_score`. -/
structure RiskComponent where
  score : ℚ
  weight : ℚ
  confidence : ℚ
  deriving DecidableEq, Repr

/-- `RiskEngine._calculate_gam_risk`. -/
def calculateGamRisk (gam_data : List GamRecord) : ℚ :=
  if gam_data = [] then 1 / 2
  else
    let total_impressions : ℤ := (gam_data.map (·.impressions)).sum
    let total_clicks : ℤ := (gam_data.map (·.clicks)).sum
    let total_revenue : ℚ := (gam_data.map (·.revenue)).sum
    if total_impressions = 0 then 1 / 2
    else
      let avg_ctr : ℚ := (total_clicks : ℚ) / (total_impressions : ℚ) * 100
      let avg_ecpm : ℚ := total_revenue / (total_impressions : ℚ) * 1000
      let risk1 : ℚ :=
        if avg_ctr > 2 ∧ avg_ecpm < 1 / 2 then 2 / 5
        else if avg_ctr > 1 ∧ avg_ecpm < 1 then 1 / 4
        else 0
      let risk2 : ℚ :=
        if avg_ctr > 5 then 3 / 10 else if avg_ctr > 3 then 3 / 20 else 0
      let risk3 : ℚ :=
        if avg_ecpm < 1 / 10 then 1 / 5
        else if avg_ecpm < 1 / 4 then 1 / 10 else 0
      min (risk1 + risk2 + risk3) 1

/-- Python truthiness of `gam_data and len(gam_data) > 0`:
true exactly when the optional list is present and non-empty. -/
def hasGamData : Option (List GamRecord) → Bool
  | some (_ :: _) => true
  | _ => false

/-- Content confidence (`_calculate_full_score`, component 1):
`min(word_count / 500, 1.0)` unless the result carries an `"error"` key,
in which case `0.2`. -/
def contentConfidence (c : ContentAnalysis) : ℚ :=
  if c.has_error then 1 / 5 else min ((c.word_count.getD 0 : ℚ) / 500) 1

/-- The four components built by `_calculate_full_score`, in the dict's
insertion order `content, ad, traffic, technical`. -/
def fullComponents (content : ContentAnalysis) (ad : AdAnalysisIn)
    (tech : TechnicalCheck) (gam_data : Option (List GamRecord)) :
    List RiskComponent :=
  let contentC : RiskComponent :=
    { score := content.risk_score.getD (1 / 2), weight := 1 / 4
      confidence := contentConfidence content }
  let adC : RiskComponent :=
    { score := ad.risk_score.getD (1 / 2), weight := 7 / 20
      confidence := if ad.ad_count.getD 0 > 0 then 1 else 7 / 10 }
  -- `gam_score = self._calculate_gam_risk(gam_data) if gam_data else 0.5`
  let gam_score : ℚ :=
    match gam_data with
    | some (g :: rest) => calculateGamRisk (g :: rest)
    | _ => 1 / 2
  let trafficC : RiskComponent :=
    { score := gam_score, weight := 1 / 4
      confidence := if hasGamData gam_data then 1 else 3 / 10 }
  let techC : RiskComponent :=
    { score := 1 - tech.health_score.getD 50 / 100, weight := 3 / 20
      confidence := 4 / 5 }
  [contentC, adC, trafficC, techC]

/-- `total_weight = sum(c["weight"] * c["confidence"] ...)`. -/
def totalWeight (cs : List RiskComponent) : ℚ :=
  (cs.map (fun c => c.weight * c.confidence)).sum

/-- `weighted_score = sum(c["score"] * c["weight"] * c["confidence"] ...)`. -/
def weightedScore (cs : List RiskComponent) : ℚ :=
  (cs.map (fun c => c.score * c.weight * c.confidence)).sum

/-- `mfa_probability = weighted_score / total_weight if total_weight > 0 else 0.5`. -/
def mfaProbabilityOf (cs : List RiskComponent) : ℚ :=
  if totalWeight cs > 0 then weightedScore cs / totalWeight cs else 1 / 2

/-- `overall_confidence = sum(c["confidence"] * c["weight"] ...)`. -/
def overallConfidenceBase (cs : List RiskComponent) : ℚ :=
  (cs.map (fun c => c.confidence * c.weight)).sum

/-- `RiskEngine._get_risk_level`. -/
def getRiskLevel (score : ℚ) : String :=
  if score ≤ 3 / 10 then "low" else if score ≤ 6 / 10 then "medium" else "high"

/-- The result dict of `RiskEngine.calculate_score` (the `"note"` string
of the GAM-only and inconclusive branches is omitted: no claim reads it). -/
structure ScoreResult where
  risk_score : ℚ
  mfa_probability : ℚ
  confidence : ℚ
  risk_level : String
  components : List RiskComponent
  scoring_mode : String
  crawl_status : String
  deriving DecidableEq, Repr

/-- `RiskEngine._calculate_full_score`.  (The source also receives the
`policy_check` dict but never reads it.) -/
def calculateFullScore (content : ContentAnalysis) (ad : AdAnalysisIn)
    (tech : TechnicalCheck) (gam_data : Option (List GamRecord))
    (crawl_status : String) : ScoreResult :=
  let cs := fullComponents content ad tech gam_data
  let mfa_probability := mfaProbabilityOf cs
  let oc := overallConfidenceBase cs
  let overall_confidence := if crawl_status = "FALLBACK" then oc * (4 / 5) else oc
  { risk_score := roundQ 2 (mfa_probability * 100)
    mfa_probability := roundQ 4 mfa_probability
    confidence := roundQ 4 overall_confidence
    risk_level := getRiskLevel mfa_probability
    components := cs
    scoring_mode := "full"
    crawl_status := crawl_status }

/-- `RiskEngine._calculate_gam_only_score`. -/
def calculateGamOnlyScore (gam_data : List GamRecord)
    (crawl_status : String) : ScoreResult :=
  let gam_score := calculateGamRisk gam_data
  let confidence : ℚ := 3 / 5
  { risk_score := roundQ 2 (gam_score * 100)
    mfa_probability := roundQ 4 gam_score
    confidence := confidence
    risk_level := getRiskLevel gam_score
    components := [{ score := gam_score, weight := 1, confidence := confidence }]
    scoring_mode := "gam_only"
    crawl_status := crawl_status }

/-- `RiskEngine._inconclusive_result`. -/
def inconclusiveResult (crawl_status : String) : ScoreResult :=
  { risk_score := 0, mfa_probability := 0, confidence := 0
    risk_level := "inconclusive", components := []
    scoring_mode := "none", crawl_status := crawl_status }

/-- `RiskEngine.calculate_score`. -/
def calculateScore (content : ContentAnalysis) (ad : AdAnalysisIn)
    (tech : TechnicalCheck) (gam_data : Option (List GamRecord))
    (crawl_status : String) : ScoreResult :=
  if crawl_status = "BLOCKED" then
    match gam_data with
    | some (g :: rest) => calculateGamOnlyScore (g :: rest) crawl_status
    | _ => inconclusiveResult crawl_status
  else
    calculateFullScore content ad tech gam_data crawl_status

end RiskEngine

namespace NetworkInterceptor

/-- One entry of the `suspicious_refreshes` list built by
`NetworkInterceptor._analyze_refresh_patterns`. -/
structure RefreshFlag where
  domain : String
  avg_interval_ms : ℚ
  min_interval_ms : ℚ
  request_count : ℕ
  severity : String
  deriving DecidableEq, Repr

/-- Python `min` over a non-empty list (`[]` never reaches it in the
source; the `0` default is arbitrary). -/
def listMinQ : List ℚ → ℚ
  | [] => 0
  | x :: xs => xs.foldl min x

/-- Python `list.sort()`: ascending order. -/
def sortAsc (ts : List ℚ) : List ℚ := List.insertionSort (· ≤ ·) ts

/-- `intervals = [timings[i+1] - timings[i] for i in range(len(timings)-1)]`
after `timings.sort()`. -/
def intervalsOf (ts : List ℚ) : List ℚ :=
  let s := sortAsc ts
  (s.zip s.tail).map fun p => p.2 - p.1

/-- `min_interval = min(intervals)`. -/
def minIntervalOf (ts : List ℚ) : ℚ := listMinQ (intervalsOf ts)

/-- `avg_interval = sum(intervals) / len(intervals)`. -/
def avgIntervalOf (ts : List ℚ) : ℚ :=
  (intervalsOf ts).sum / ((intervalsOf ts).length : ℚ)

/-- The per-domain body of `_analyze_refresh_patterns`: `none` when the
domain is skipped (fewer than two timings, or no intervals) or not
flagged; otherwise the severity of its flag
(`"HIGH"` iff `min_interval < 15000`). -/
def flagSeverity (ts : List ℚ) : Option String :=
  if ts.length < 2 then none
  else
    let intervals := intervalsOf ts
    if intervals = [] then none
    else
      let avg := intervals.sum / (intervals.length : ℚ)
      let mn := listMinQ intervals
      if mn < 30000 ∨ avg < 60000 then
        some (if mn < 15000 then "HIGH" else "MEDIUM")
      else none

/-- The full `suspicious_refreshes` list of `_analyze_refresh_patterns`,
iterating `self.refresh_patterns` (an insertion-ordered dict, modelled as
an association list with distinct keys). -/
def suspiciousRefreshes (m : List (String × List ℚ)) : List RefreshFlag :=
  m.filterMap fun p =>
    (flagSeverity p.2).map fun sev =>
      { domain := p.1
        avg_interval_ms := roundQ 0 (avgIntervalOf p.2)
        min_interval_ms := roundQ 0 (minIntervalOf p.2)
        request_count := p.2.length
        severity := sev }

/-- The dict returned by `_analyze_refresh_patterns`
(`patterns` is truncated to the first five flags). -/
structure RefreshAnalysis where
  detected : Bool
  count : ℕ
  patterns : List RefreshFlag
  deriving DecidableEq, Repr

/-- `NetworkInterceptor._analyze_refresh_patterns`. -/
def analyzeRefreshPatterns (m : List (String × List ℚ)) : RefreshAnalysis :=
  let s := suspiciousRefreshes m
  { detected := decide (0 < s.length), count := s.length, patterns := s.take 5 }

/-- `NetworkInterceptor._track_refresh_pattern` (one step): append the
timing to the domain's list, creating the entry if absent. -/
def trackRefreshPattern (m : List (String × List ℚ)) (domain : String)
    (timing : ℚ) : List (String × List ℚ) :=
  if m.any (fun p => p.1 = domain) then
    m.map fun p => if p.1 = domain then (p.1, p.2 ++ [timing]) else p
  else
    m ++ [(domain, [timing])]

/-- The `refresh_patterns` dict accumulated by calling
`_track_refresh_pattern` on each categorized ad request, given as
`(domain, startTime)` pairs. -/
def buildRefreshPatterns (reqs : List (String × ℚ)) : List (String × List ℚ) :=
  reqs.foldl (fun m r => trackRefreshPattern m r.1 r.2) []

/-- A suspicious pattern as built by `_detect_suspicious_patterns`
(`type` and `severity`; the free-text `description` and the auxiliary
`count`/`networks` fields feed no claim). -/
structure NetPattern where
  ptype : String
  severity : String
  deriving DecidableEq, Repr

/-- The interceptor state, after `analyze_requests` has categorized the
request stream: the `network` field of each entry of `self.ad_requests`
(so `adRequestNetworks.length = len(self.ad_requests)`),
`len(self.prebid_events)`, `len(self.vast_calls)`, and
`self.refresh_patterns`.  The URL-regex categorization that produces this
state is upstream of every claim about the risk score. -/
structure NetState where
  adRequestNetworks : List String
  prebidCount : ℕ
  vastCount : ℕ
  refreshPatterns : List (String × List ℚ)
  deriving DecidableEq, Repr

/-- `NetworkInterceptor._detect_suspicious_patterns`. -/
def detectSuspiciousPatterns (st : NetState) : List NetPattern :=
  let adCount := st.adRequestNetworks.length
  let p1 : List NetPattern :=
    if adCount > 100 then [⟨"EXCESSIVE_AD_CALLS", "HIGH"⟩]
    else if adCount > 50 then [⟨"HIGH_AD_CALLS", "MEDIUM"⟩]
    else []
  let p2 : List NetPattern :=
    if st.prebidCount > 10 then [⟨"MULTIPLE_PREBID_AUCTIONS", "MEDIUM"⟩] else []
  let refresh := analyzeRefreshPatterns st.refreshPatterns
  let p3 : List NetPattern :=
    if refresh.detected then
      [⟨"AUTO_REFRESH_ADS",
        if refresh.patterns.any (·.severity = "HIGH") then "HIGH" else "MEDIUM"⟩]
    else []
  let p4 : List NetPattern :=
    if st.adRequestNetworks.dedup.length > 15 then
      [⟨"FRAGMENTED_AD_STACK", "MEDIUM"⟩]
    else []
  let p5 : List NetPattern :=
    if st.vastCount > 5 then [⟨"EXCESSIVE_VIDEO_ADS", "MEDIUM"⟩] else []
  p1 ++ p2 ++ p3 ++ p4 ++ p5

/-- `NetworkInterceptor._calculate_network_risk_score`: base tier from
`len(self.ad_requests)`, then the pattern loop, then `min(100, score)`. -/
def calculateNetworkRiskScore (st : NetState) (patterns : List NetPattern) : ℕ :=
  let adCount := st.adRequestNetworks.length
  let score0 : ℕ :=
    if adCount > 100 then 70
    else if adCount > 50 then 40
    else if adCount > 25 then 15
    else 0
  let score := patterns.foldl (fun s p =>
    if p.ptype = "AUTO_REFRESH_ADS" then
      s + (if p.severity = "HIGH" then 40 else 25)
    else if p.ptype = "EXCESSIVE_AD_CALLS" then
      s + (if p.severity = "HIGH" then 30 else 15)
    else if p.ptype = "MULTIPLE_PREBID_AUCTIONS" then s + 10
    else if p.ptype = "EXCESSIVE_VIDEO_ADS" then s + 15
    else if p.ptype = "FRAGMENTED_AD_STACK" then s + 5
    else s) score0
  min 100 score

/-- `NetworkInterceptor._get_risk_level` (0–100 scale). -/
def getRiskLevel (score : ℕ) : String :=
  if score ≥ 70 then "high" else if score ≥ 40 then "medium" else "low"

end NetworkInterceptor

namespace AdHeatmap

/-- `AdHeatmapAnalyzer._get_risk_level` (`src/analyzers/ad_heatmap.py`,
0–100 scale). -/
def getRiskLevel (score : ℕ) : String :=
  if score ≥ 60 then "high" else if score ≥ 30 then "medium" else "low"

end AdHeatmap

namespace AdAnalyzer

/-- The fields of an ad-element dict that `AdAnalyzer` reads:
`width`/`height`/`y` (each `ad.get(_, 0)`), `visible`
(`ad.get("visible", True)`) and `isHidden` (`ad.get("isHidden", False)`),
shown here with their defaults already applied. -/
structure AdElement where
  width : ℚ
  height : ℚ
  y : ℚ
  visible : Bool
  isHidden : Bool
  deriving DecidableEq, Repr

/-- The fields of a video-element dict that `_analyze_video_players`
reads (truthiness of `autoplay`, `muted`, `isHidden`, `isSticky`). -/
structure VideoElement where
  autoplay : Bool
  muted : Bool
  isHidden : Bool
  isSticky : Bool
  deriving DecidableEq, Repr

/-- The dict returned by `AdAnalyzer._calculate_density`. -/
structure DensityMetrics where
  ad_density : ℚ
  element_ratio : ℚ
  ads_per_1k_chars : ℚ
  area_density : ℚ
  is_excessive : Bool
  deriving DecidableEq, Repr

/-- `AdAnalyzer._calculate_density`. -/
def calculateDensity (adCount : ℕ) (ads : List AdElement)
    (totalElements textLength : ℕ) (viewportHeight : ℚ) : DensityMetrics :=
  let element_ratio : ℚ := (adCount : ℚ) / (max totalElements 1 : ℕ)
  let ads_per_1k_chars : ℚ := (adCount : ℚ) * 1000 / (max textLength 1 : ℕ)
  let viewport_area : ℚ := 1920 * viewportHeight
  let ad_area : ℚ :=
    ((ads.filter (·.visible)).map (fun a => a.width * a.height)).sum
  let area_density : ℚ := ad_area / max viewport_area 1
  let density : ℚ :=
    min ((element_ratio + ads_per_1k_chars / 10 + area_density * 2) / 3) 1
  { ad_density := roundQ 3 density
    element_ratio := roundQ 3 element_ratio
    ads_per_1k_chars := roundQ 2 ads_per_1k_chars
    area_density := roundQ 3 area_density
    is_excessive := decide (density > 3 / 10 ∨ area_density > 2 / 5) }

/-- A suspicious pattern (`type` and `severity`; the free-text
`description` feeds no claim). -/
structure AdPattern where
  ptype : String
  severity : String
  deriving DecidableEq, Repr

/-- Structural list-prefix test (auxiliary for the substring test). -/
def listPrefix : List Char → List Char → Bool
  | [], _ => true
  | _ :: _, [] => false
  | a :: as, b :: bs => a = b && listPrefix as bs

/-- Structural "occurs inside" test (auxiliary for the substring test). -/
def containsSubAux (needle : List Char) : List Char → Bool
  | [] => needle.isEmpty
  | c :: rest => listPrefix needle (c :: rest) || containsSubAux needle rest

/-- Python `needle in hay` substring test. -/
def containsSub (hay needle : String) : Bool :=
  containsSubAux needle.data hay.data

/-- Python `str.lower()` (character-wise; the source's markers are ASCII). -/
def strToLower (s : String) : String := ⟨s.data.map Char.toLower⟩

/-- The `aggressive_scripts` list of `_detect_suspicious_patterns`. -/
def aggressiveScripts : List String :=
  ["popunder", "popads", "exoclick", "propellerads"]

/-- `AdAnalyzer._detect_suspicious_patterns` (one `aggressive_ad_script`
pattern per script URL that contains an aggressive marker — the source
`break`s after the first marker that matches a given script). -/
def detectSuspiciousPatterns (adCount adReqCount : ℕ) (scripts : List String)
    (stackedCount : ℕ) : List AdPattern :=
  let p1 : List AdPattern :=
    if adCount > 6 then [⟨"excessive_ads", "high"⟩] else []
  let p2 : List AdPattern :=
    if stackedCount > 0 then [⟨"ad_stacking", "critical"⟩] else []
  let p3 : List AdPattern :=
    if adReqCount > 0 ∧ adCount > 0 ∧ (adReqCount : ℚ) / (adCount : ℚ) > 5 then
      [⟨"hidden_ad_requests", "medium"⟩]
    else []
  let p4 : List AdPattern := scripts.filterMap fun sc =>
    if aggressiveScripts.any (fun a => containsSub (AdAnalyzer.strToLower sc) a) then
      some ⟨"aggressive_ad_script", "high"⟩
    else none
  p1 ++ p2 ++ p3 ++ p4

/-- The ad-count tier of `_calculate_risk_score`
(`>10 → 0.3`, `>6 → 0.2`, `>3 → 0.1`, else `0`). -/
def countContribution (adCount : ℕ) : ℚ :=
  if adCount > 10 then 3 / 10
  else if adCount > 6 then 1 / 5
  else if adCount > 3 then 1 / 10
  else 0

/-- `AdAnalyzer._calculate_risk_score` (the source's `ad_request_count`
parameter is accepted but never read by the body). -/
def calculateRiskScore (adCount : ℕ) (density : ℚ)
    (patterns : List AdPattern) : ℚ :=
  let score := countContribution adCount + min density (3 / 10)
  let high := (patterns.filter (·.severity = "high")).length
  let med := (patterns.filter (·.severity = "medium")).length
  let score := score + min ((high : ℚ) * (3 / 20) + (med : ℚ) * (2 / 25)) (2 / 5)
  min score 1

/-- The dict returned by `_analyze_video_players`. -/
structure VideoAnalysis where
  video_count : ℕ
  autoplay_count : ℕ
  muted_autoplay : Bool
  hidden_videos : ℕ
  sticky_videos : ℕ
  video_stuffing : Bool
  risk_score : ℚ
  deriving DecidableEq, Repr

/-- `AdAnalyzer._analyze_video_players`. -/
def analyzeVideoPlayers (vs : List VideoElement) : VideoAnalysis :=
  if vs = [] then
    { video_count := 0, autoplay_count := 0, muted_autoplay := false
      hidden_videos := 0, sticky_videos := 0, video_stuffing := false
      risk_score := 0 }
  else
    let video_count := vs.length
    let autoplay_count := (vs.filter (·.autoplay)).length
    let muted_count := (vs.filter (·.muted)).length
    let hidden_count := (vs.filter (·.isHidden)).length
    let sticky_count := (vs.filter (·.isSticky)).length
    let video_stuffing := video_count > 5
    let muted_autoplay := autoplay_count > 0 ∧ muted_count > 0
    let r1 : ℚ := if video_stuffing then 3 / 10 else 0
    let r2 : ℚ := if muted_autoplay then 1 / 4 else 0
    let r3 : ℚ :=
      if hidden_count > 0 then min ((hidden_count : ℚ) * (3 / 20)) (3 / 10) else 0
    let r4 : ℚ := if sticky_count > 2 then 1 / 5 else 0
    { video_count := video_count, autoplay_count := autoplay_count
      muted_autoplay := decide muted_autoplay, hidden_videos := hidden_count
      sticky_videos := sticky_count, video_stuffing := decide video_stuffing
      risk_score := min (r1 + r2 + r3 + r4) 1 }

/-- `AdAnalyzer._calculate_layout_risk`. -/
def calculateLayoutRisk (ads : List AdElement) (stackedCount : ℕ) : ℚ :=
  if ads = [] then 0
  else
    let atf := (ads.filter (fun a => a.y < 1000)).length
    let r1 : ℚ := if atf > 3 then 3 / 10 else if atf > 1 then 3 / 20 else 0
    let r2 : ℚ :=
      if stackedCount > 0 then min ((stackedCount : ℚ) * (1 / 4)) (3 / 5) else 0
    let hidden := (ads.filter (·.isHidden)).length
    let r3 : ℚ := if hidden > 0 then min ((hidden : ℚ) * (3 / 20)) (2 / 5) else 0
    let large := (ads.filter (fun a => a.width * a.height > 300000)).length
    let r4 : ℚ := if large > 0 then 3 / 20 else 0
    min (r1 + r2 + r3 + r4) 1

/-- `AdAnalyzer._get_risk_level` (0–1 scale). -/
def getRiskLevel (risk_score : ℚ) : String :=
  if risk_score ≥ 7 / 10 then "high"
  else if risk_score ≥ 2 / 5 then "medium"
  else "low"

/-- The fields of the dict returned by `AdAnalyzer.analyze` that the
claims read (`ad_networks`, iframe counts and the pass-through crawler
stats feed none of them). -/
structure AdAnalysisResult where
  ad_count : ℕ
  ad_request_count : ℕ
  stacked_ads_count : ℕ
  density : DensityMetrics
  suspicious_patterns : List AdPattern
  video_analysis : VideoAnalysis
  risk_score : ℚ
  layout_risk : ℚ
  risk_level : String
  deriving DecidableEq, Repr

/-- The successful path of `AdAnalyzer.analyze`: density, pattern
detection, video analysis, risk blending (`min(1.0, risk + video*0.3)`),
layout risk and level, with `risk_score`/`layout_risk` rounded to two
places and `risk_level` computed from the unrounded score, exactly as in
the source. -/
def analyze (ads : List AdElement) (stackedCount adReqCount : ℕ)
    (scripts : List String) (videos : List VideoElement)
    (totalElements textLength : ℕ) (viewportHeight : ℚ) : AdAnalysisResult :=
  let adCount := ads.length
  let dm := calculateDensity adCount ads totalElements textLength viewportHeight
  let patterns := detectSuspiciousPatterns adCount adReqCount scripts stackedCount
  let va := analyzeVideoPlayers videos
  let risk0 := calculateRiskScore adCount dm.ad_density patterns
  let risk := min 1 (risk0 + va.risk_score * (3 / 10))
  { ad_count := adCount
    ad_request_count := adReqCount
    stacked_ads_count := stackedCount
    density := dm
    suspicious_patterns := patterns
    video_analysis := va
    risk_score := roundQ 2 risk
    layout_risk := roundQ 2 (calculateLayoutRisk ads stackedCount)
    risk_level := getRiskLevel risk }

end AdAnalyzer

namespace Viewability

/-- A bounding-box dict `{top, left, right, bottom}` (each read with
`bbox.get(_, 0)`; an ad with no `boundingBox` key yields the empty dict,
modelled as `none` at the use site). -/
structure BBox where
  top : ℚ
  left : ℚ
  right : ℚ
  bottom : ℚ
  deriving DecidableEq, Repr

/-- A viewport `{width, height}` (default `1920×1080`). -/
structure Viewport where
  width : ℚ
  height : ℚ
  deriving DecidableEq, Repr

/-- The default `ViewabilityChecker` viewport. -/
def defaultViewport : Viewport := { width := 1920, height := 1080 }

/-- The MRC default minimum visibility ratio
(`ViewabilityChecker.__init__`). -/
def defaultMinVisibilityRatio : ℚ := 1 / 2

/-- `ViewabilityChecker._calculate_intersection_ratio`: clamp the box
against the viewport; `0` on the empty dict, on empty clamped overlap,
or on zero element area; otherwise `intersection_area / element_area`. -/
def calcIntersectionRatio (bbox : Option BBox) (vp : Viewport) : ℚ :=
  match bbox with
  | none => 0
  | some b =>
    let int_top := max b.top 0
    let int_left := max b.left 0
    let int_bottom := min b.bottom vp.height
    let int_right := min b.right vp.width
    if int_top ≥ int_bottom ∨ int_left ≥ int_right then 0
    else
      let intersection_area := (int_right - int_left) * (int_bottom - int_top)
      let element_area := (b.right - b.left) * (b.bottom - b.top)
      if element_area = 0 then 0 else intersection_area / element_area

/-- The fields of an ad-element dict that `ViewabilityChecker` reads. -/
structure ViewAdElement where
  id : String
  boundingBox : Option BBox
  zIndex : Option ℤ
  iframeDepth : ℕ
  display : Option String
  visibility : Option String
  deriving DecidableEq, Repr

/-- The dict built by `ViewabilityChecker._analyze_ad` (the `position`
and `type` fields feed no claim). -/
structure AnalyzedAd where
  id : String
  intersection_ratio : ℚ
  is_viewable : Bool
  is_above_fold : Bool
  occluded : Bool
  iframe_depth : ℕ
  hidden_by_css : Bool
  deriving DecidableEq, Repr

/-- `ViewabilityChecker._analyze_ad` (note the stored
`intersection_ratio` is rounded to three places while `is_viewable` uses
the unrounded ratio, exactly as in the source). -/
def analyzeAd (minRatio : ℚ) (ad : ViewAdElement) (vp : Viewport) : AnalyzedAd :=
  let r := calcIntersectionRatio ad.boundingBox vp
  let bboxTop : ℚ := match ad.boundingBox with | none => 0 | some b => b.top
  let has_valid_z : Bool := match ad.zIndex with | none => true | some z => decide (z ≥ 0)
  { id := ad.id
    intersection_ratio := roundQ 3 r
    is_viewable := decide (r ≥ minRatio) && has_valid_z
    is_above_fold := decide (bboxTop ≤ 600)
    occluded := !has_valid_z
    iframe_depth := ad.iframeDepth
    hidden_by_css := decide (ad.display = some "none" ∨ ad.visibility = some "hidden") }

/-- The three-way categorization of `_categorize_by_viewability`
(driven by the stored, rounded `intersection_ratio`). -/
structure Categorized where
  viewable : List AnalyzedAd
  partially_viewable : List AnalyzedAd
  not_viewable : List AnalyzedAd
  deriving DecidableEq, Repr

/-- `ViewabilityChecker._categorize_by_viewability`. -/
def categorizeByViewability (minRatio : ℚ) (ads : List AnalyzedAd) : Categorized :=
  { viewable := ads.filter fun a => a.intersection_ratio ≥ minRatio
    partially_viewable := ads.filter fun a =>
      ¬ (a.intersection_ratio ≥ minRatio) ∧ a.intersection_ratio > 0
    not_viewable := ads.filter fun a =>
      ¬ (a.intersection_ratio ≥ minRatio) ∧ ¬ (a.intersection_ratio > 0) }

/-- The dict returned by `_calculate_metrics` (counts are absent from the
source's `total == 0` branch; here they are `0`, which that branch's
callers never read — and the branch itself is unreachable from `analyze`,
which returns the empty result before it). -/
structure Metrics where
  total_ads : ℕ
  viewable_count : ℕ
  partially_viewable_count : ℕ
  not_viewable_count : ℕ
  viewable_percentage : ℚ
  partially_viewable_percentage : ℚ
  not_viewable_percentage : ℚ
  deriving DecidableEq, Repr

/-- `ViewabilityChecker._calculate_metrics`. -/
def calculateMetrics (c : Categorized) : Metrics :=
  let total := c.viewable.length + c.partially_viewable.length + c.not_viewable.length
  if total = 0 then
    { total_ads := 0, viewable_count := 0, partially_viewable_count := 0
      not_viewable_count := 0, viewable_percentage := 0
      partially_viewable_percentage := 0, not_viewable_percentage := 0 }
  else
    { total_ads := total
      viewable_count := c.viewable.length
      partially_viewable_count := c.partially_viewable.length
      not_viewable_count := c.not_viewable.length
      viewable_percentage := roundQ 2 ((c.viewable.length : ℚ) / total * 100)
      partially_viewable_percentage :=
        roundQ 2 ((c.partially_viewable.length : ℚ) / total * 100)
      not_viewable_percentage :=
        roundQ 2 ((c.not_viewable.length : ℚ) / total * 100) }

/-- One entry of the `hidden_ads` list of `_detect_hidden_ads`. -/
structure HiddenAd where
  id : String
  reasons : List String
  intersection_ratio : ℚ
  deriving DecidableEq, Repr

/-- `ViewabilityChecker._detect_hidden_ads`. -/
def detectHiddenAds (minRatio : ℚ) (ads : List AnalyzedAd) : List HiddenAd :=
  ads.filterMap fun ad =>
    let r1 : List String :=
      if ad.intersection_ratio = 0 then ["completely_offscreen"]
      else if ad.intersection_ratio < minRatio then ["partially_obscured"]
      else []
    let r2 : List String := if ad.hidden_by_css then ["hidden_by_css"] else []
    let r3 : List String := if ad.occluded then ["negative_z_index"] else []
    let r4 : List String := if ad.iframe_depth > 3 then ["deeply_nested"] else []
    let reasons := r1 ++ r2 ++ r3 ++ r4
    if reasons = [] then none
    else some { id := ad.id, reasons := reasons
                intersection_ratio := ad.intersection_ratio }

/-- One entry of the `issues` list of `_identify_issues`. -/
structure Issue where
  severity : String
  itype : String
  count : ℕ
  deriving DecidableEq, Repr

/-- `ViewabilityChecker._identify_issues`. -/
def identifyIssues (c : Categorized) : List Issue :=
  let i1 : List Issue :=
    if c.not_viewable ≠ [] then
      [{ severity := "high", itype := "hidden_ads", count := c.not_viewable.length }]
    else []
  let low := c.partially_viewable.filter fun a => a.intersection_ratio < 3 / 10
  let i2 : List Issue :=
    if low ≠ [] then
      [{ severity := "medium", itype := "low_viewability", count := low.length }]
    else []
  i1 ++ i2

/-- `ViewabilityChecker._get_recommendations`. -/
def getRecommendations (m : Metrics) : List String :=
  if m.viewable_percentage ≥ 50 then []
  else
    ["Improve ad placement visibility",
     "Review ad slot positioning",
     "Consider reducing ad density to improve viewability"]

/-- The dict returned by `ViewabilityChecker.analyze`. -/
structure ViewabilityResult where
  metrics : Metrics
  categorization : Categorized
  hidden_ads : List HiddenAd
  issues : List Issue
  mrc_compliant : Bool
  compliance_status : String
  recommended_actions : List String
  deriving DecidableEq, Repr

/-- `ViewabilityChecker._empty_result` (its `metrics` dict carries only
`total_ads` and `viewable_percentage`; the other fields are zero here). -/
def emptyResult : ViewabilityResult :=
  { metrics :=
      { total_ads := 0, viewable_count := 0, partially_viewable_count := 0
        not_viewable_count := 0, viewable_percentage := 0
        partially_viewable_percentage := 0, not_viewable_percentage := 0 }
    categorization := { viewable := [], partially_viewable := [], not_viewable := [] }
    hidden_ads := []
    issues := []
    mrc_compliant := true
    compliance_status := "no_ads"
    recommended_actions := [] }

/-- `ViewabilityChecker.analyze` (a `None` viewport defaults to
`1920×1080` before this is reached, modelled by `defaultViewport`). -/
def analyze (minRatio : ℚ) (ad_elements : List ViewAdElement)
    (vp : Viewport) : ViewabilityResult :=
  if ad_elements = [] then emptyResult
  else
    let analyzed := ad_elements.map fun ad => analyzeAd minRatio ad vp
    let categorized := categorizeByViewability minRatio analyzed
    let metrics := calculateMetrics categorized
    { metrics := metrics
      categorization := categorized
      hidden_ads := detectHiddenAds minRatio analyzed
      issues := identifyIssues categorized
      mrc_compliant := decide (metrics.viewable_percentage ≥ 50)
      compliance_status :=
        if metrics.viewable_percentage ≥ 50 then "compliant" else "non_compliant"
      recommended_actions := getRecommendations metrics }

end Viewability

namespace NetworkInterceptor

/-- The domains flagged by `_analyze_refresh_patterns` (before the
five-entry truncation of the returned `patterns` list, which does not
affect `detected`/`count`). -/
def flaggedDomains (m : List (String × List ℚ)) : List String :=
  (suspiciousRefreshes m).map (·.domain)

end NetworkInterceptor

namespace Spec

/-- From the claim's wording (C4): base tier from ad-request volume
(`>100 → 70`, `>50 → 40`, `>25 → 15`). -/
def netBaseTier (adCount : ℕ) : ℕ :=
  if adCount > 100 then 70
  else if adCount > 50 then 40
  else if adCount > 25 then 15
  else 0

/-- From the claim's wording (C4): fixed point additions per detected
suspicious-pattern type (auto-refresh HIGH `+40` / MEDIUM `+25`,
excessive-calls `+30`/`+15`, multiple prebid auctions `+10`, excessive
video ads `+15`, fragmented ad stack `+5`; types outside the schedule
add nothing). -/
def netPatternPoints (p : NetworkInterceptor.NetPattern) : ℕ :=
  if p.ptype = "AUTO_REFRESH_ADS" then (if p.severity = "HIGH" then 40 else 25)
  else if p.ptype = "EXCESSIVE_AD_CALLS" then (if p.severity = "HIGH" then 30 else 15)
  else if p.ptype = "MULTIPLE_PREBID_AUCTIONS" then 10
  else if p.ptype = "EXCESSIVE_VIDEO_ADS" then 15
  else if p.ptype = "FRAGMENTED_AD_STACK" then 5
  else 0

end Spec

/-! ## Theorems -/

/-- Evaluation helper: when `x` is an exact multiple of `10⁻ᵏ`,
rounding to `k` places returns `x` itself. -/
theorem roundQ_exact (k : ℕ) (x : ℚ) (n : ℤ) (h : x * 10 ^ k = n) :
    roundQ k x = x := by
  have hfl : ⌊x * 10 ^ k + 1 / 2⌋ = n := by
    rw [h, add_comm, Int.floor_add_int]
    norm_num
  have hpow : ((10 : ℚ) ^ k) ≠ 0 := by positivity
  rw [roundQ, hfl]
  field_simp at h ⊢
  linarith

/-- **C1** — RiskAggregator mode selection: with `crawl_status="BLOCKED"`
and a non-empty `gam_data` list, `calculate_score` returns scoring mode
`"gam_only"`; with `"BLOCKED"` and `gam_data` absent or empty it returns
scoring mode `"none"` with `mfa_probability` exactly `0` and `confidence`
exactly `0`; with `"SUCCESS"` it returns scoring mode `"full"`. -/
theorem claim_C1_mode_selection (content : RiskEngine.ContentAnalysis)
    (ad : RiskEngine.AdAnalysisIn) (tech : RiskEngine.TechnicalCheck) :
    (∀ (g : RiskEngine.GamRecord) (rest : List RiskEngine.GamRecord),
      (RiskEngine.calculateScore content ad tech (some (g :: rest))
        "BLOCKED").scoring_mode = "gam_only")
    ∧ (∀ gam : Option (List RiskEngine.GamRecord),
        RiskEngine.hasGamData gam = false →
        (RiskEngine.calculateScore content ad tech gam "BLOCKED").scoring_mode = "none"
        ∧ (RiskEngine.calculateScore content ad tech gam "BLOCKED").mfa_probability = 0
        ∧ (RiskEngine.calculateScore content ad tech gam "BLOCKED").confidence = 0)
    ∧ (∀ gam : Option (List RiskEngine.GamRecord),
        (RiskEngine.calculateScore content ad tech gam "SUCCESS").scoring_mode = "full") := by
  refine ⟨fun g rest => ?_, fun gam hg => ?_, fun gam => ?_⟩
  · rfl
  · match gam with
    | none => exact ⟨rfl, rfl, rfl⟩
    | some [] => exact ⟨rfl, rfl, rfl⟩
    | some (g :: rest) => simp [RiskEngine.hasGamData] at hg
  · rfl

/-- Witness for C1: all three modes exercised at concrete inputs. -/
theorem claim_C1_mode_selection_witness :
    (RiskEngine.calculateScore ⟨none, none, false⟩ ⟨none, none⟩ ⟨none⟩
      (some [⟨1000, 10, 5⟩]) "BLOCKED").scoring_mode = "gam_only"
    ∧ (RiskEngine.calculateScore ⟨none, none, false⟩ ⟨none, none⟩ ⟨none⟩
        none "BLOCKED").scoring_mode = "none"
    ∧ (RiskEngine.calculateScore ⟨none, none, false⟩ ⟨none, none⟩ ⟨none⟩
        none "BLOCKED").mfa_probability = 0
    ∧ (RiskEngine.calculateScore ⟨none, none, false⟩ ⟨none, none⟩ ⟨none⟩
        none "BLOCKED").confidence = 0
    ∧ (RiskEngine.calculateScore ⟨none, none, false⟩ ⟨none, none⟩ ⟨none⟩
        none "SUCCESS").scoring_mode = "full" := by
  have h := claim_C1_mode_selection ⟨none, none, false⟩ ⟨none, none⟩ ⟨none⟩
  have h2 := h.2.1 none rfl
  exact ⟨h.1 ⟨1000, 10, 5⟩ [], h2.1, h2.2.1, h2.2.2, h.2.2 none⟩

/-- **C10** — for every crawl status other than `"BLOCKED"` (including
`"FAILED"`), `calculate_score` takes the full multi-component scoring
path and returns scoring mode `"full"`. -/
theorem claim_C10_non_blocked_is_full (content : RiskEngine.ContentAnalysis)
    (ad : RiskEngine.AdAnalysisIn) (tech : RiskEngine.TechnicalCheck)
    (gam : Option (List RiskEngine.GamRecord)) (status : String)
    (h : status ≠ "BLOCKED") :
    (RiskEngine.calculateScore content ad tech gam status).scoring_mode = "full" := by
  simp only [RiskEngine.calculateScore, RiskEngine.calculateFullScore, if_neg h]

/-- Witness for C10: a `"FAILED"` crawl still scores in full mode. -/
theorem claim_C10_non_blocked_is_full_witness :
    (RiskEngine.calculateScore ⟨none, none, false⟩ ⟨none, none⟩ ⟨none⟩
      none "FAILED").scoring_mode = "full" :=
  claim_C10_non_blocked_is_full ⟨none, none, false⟩ ⟨none, none⟩ ⟨none⟩
    none "FAILED" (by decide)

/-- **C2** — Full-mode aggregation: the four components carry weights
`0.25` (content), `0.35` (ad), `0.25` (traffic), `0.15` (technical); the
confidence-weighted total is always positive; the aggregated probability
equals `Σ(score·weight·confidence) / Σ(weight·confidence)`; the reported
confidence equals `Σ(confidence·weight)` (rounded for output), and a
`"FALLBACK"` crawl status multiplies it by `0.8`. -/
theorem claim_C2_full_mode_aggregation (content : RiskEngine.ContentAnalysis)
    (ad : RiskEngine.AdAnalysisIn) (tech : RiskEngine.TechnicalCheck)
    (gam : Option (List RiskEngine.GamRecord)) (status : String) :
    (RiskEngine.fullComponents content ad tech gam).map
        RiskEngine.RiskComponent.weight = [1/4, 7/20, 1/4, 3/20]
    ∧ 0 < RiskEngine.totalWeight (RiskEngine.fullComponents content ad tech gam)
    ∧ RiskEngine.mfaProbabilityOf (RiskEngine.fullComponents content ad tech gam)
        = RiskEngine.weightedScore (RiskEngine.fullComponents content ad tech gam)
          / RiskEngine.totalWeight (RiskEngine.fullComponents content ad tech gam)
    ∧ (RiskEngine.calculateFullScore content ad tech gam status).mfa_probability
        = roundQ 4
            (RiskEngine.weightedScore (RiskEngine.fullComponents content ad tech gam)
              / RiskEngine.totalWeight (RiskEngine.fullComponents content ad tech gam))
    ∧ (status ≠ "FALLBACK" →
        (RiskEngine.calculateFullScore content ad tech gam status).confidence
          = roundQ 4 (RiskEngine.overallConfidenceBase
              (RiskEngine.fullComponents content ad tech gam)))
    ∧ (RiskEngine.calculateFullScore content ad tech gam "FALLBACK").confidence
        = roundQ 4 (RiskEngine.overallConfidenceBase
            (RiskEngine.fullComponents content ad tech gam) * (4/5)) := by
  have hcc : 0 ≤ RiskEngine.contentConfidence content := by
    unfold RiskEngine.contentConfidence
    split_ifs
    · norm_num
    · exact le_min (by positivity) (by norm_num)
  have hpos : 0 < RiskEngine.totalWeight (RiskEngine.fullComponents content ad tech gam) := by
    unfold RiskEngine.totalWeight RiskEngine.fullComponents
    simp only [List.map_cons, List.map_nil, List.sum_cons, List.sum_nil]
    split_ifs <;> nlinarith [hcc]
  have hprob : RiskEngine.mfaProbabilityOf (RiskEngine.fullComponents content ad tech gam)
      = RiskEngine.weightedScore (RiskEngine.fullComponents content ad tech gam)
        / RiskEngine.totalWeight (RiskEngine.fullComponents content ad tech gam) := by
    unfold RiskEngine.mfaProbabilityOf
    rw [if_pos hpos]
  refine ⟨?_, hpos, hprob, ?_, fun h => ?_, ?_⟩
  · rfl
  · simp only [RiskEngine.calculateFullScore, hprob]
  · simp only [RiskEngine.calculateFullScore, if_neg h]
  · rfl

/-- Witness for C2: concrete instantiation (no GAM data, `"SUCCESS"`). -/
theorem claim_C2_full_mode_aggregation_witness :
    0 < RiskEngine.totalWeight
        (RiskEngine.fullComponents ⟨none, none, false⟩ ⟨none, none⟩ ⟨none⟩ none)
    ∧ (RiskEngine.calculateFullScore ⟨none, none, false⟩ ⟨none, none⟩ ⟨none⟩
        none "SUCCESS").confidence
      = roundQ 4 (RiskEngine.overallConfidenceBase
          (RiskEngine.fullComponents ⟨none, none, false⟩ ⟨none, none⟩ ⟨none⟩ none)) :=
  ⟨(claim_C2_full_mode_aggregation ⟨none, none, false⟩ ⟨none, none⟩ ⟨none⟩
      none "SUCCESS").2.1,
   (claim_C2_full_mode_aggregation ⟨none, none, false⟩ ⟨none, none⟩ ⟨none⟩
      none "SUCCESS").2.2.2.2.1 (by decide)⟩

/-- **C8, counterexample** — with every component's score field
structurally missing (and no GAM data), `calculate_score` does not
degrade to an empty/zero result: it substitutes the default score `0.5`
for every component of the weighted aggregation and returns a `"full"`
result with probability `0.5`. -/
theorem claim_C8_counterexample :
    ((RiskEngine.calculateScore ⟨none, none, false⟩ ⟨none, none⟩ ⟨none⟩
        none "SUCCESS").components.map RiskEngine.RiskComponent.score)
      = [1/2, 1/2, 1/2, 1/2]
    ∧ (RiskEngine.calculateScore ⟨none, none, false⟩ ⟨none, none⟩ ⟨none⟩
        none "SUCCESS").mfa_probability = 1/2
    ∧ (RiskEngine.calculateScore ⟨none, none, false⟩ ⟨none, none⟩ ⟨none⟩
        none "SUCCESS").scoring_mode = "full" := by
  have hred : RiskEngine.calculateScore ⟨none, none, false⟩ ⟨none, none⟩ ⟨none⟩
      none "SUCCESS" = RiskEngine.calculateFullScore ⟨none, none, false⟩
      ⟨none, none⟩ ⟨none⟩ none "SUCCESS" := rfl
  have hcs : RiskEngine.fullComponents ⟨none, none, false⟩ ⟨none, none⟩ ⟨none⟩ none
      = [⟨1/2, 1/4, 0⟩, ⟨1/2, 7/20, 7/10⟩, ⟨1/2, 1/4, 3/10⟩, ⟨1/2, 3/20, 4/5⟩] := by
    norm_num [RiskEngine.fullComponents, RiskEngine.contentConfidence,
      RiskEngine.hasGamData]
  have hp : RiskEngine.mfaProbabilityOf
      (RiskEngine.fullComponents ⟨none, none, false⟩ ⟨none, none⟩ ⟨none⟩ none)
      = 1/2 := by
    rw [RiskEngine.mfaProbabilityOf, hcs]
    norm_num [RiskEngine.totalWeight, RiskEngine.weightedScore]
  refine ⟨?_, ?_, rfl⟩
  · rw [hred]
    simp only [RiskEngine.calculateFullScore, hcs]
    norm_num
  · rw [hred]
    simp only [RiskEngine.calculateFullScore, hp]
    exact roundQ_exact 4 (1/2) 5000 (by norm_num)

/-- **C8, amended** — when a component's analysis result lacks its score
field, `_calculate_full_score` substitutes the default score `0.5` for
that component inside the weighted aggregation (missing GAM data also
yields score `0.5`, at confidence `0.3`); degradation is expressed
through the confidence factors only, and the result is still a `"full"`
result, never an empty/zero one. -/
theorem claim_C8_default_half_substitution (content : RiskEngine.ContentAnalysis)
    (ad : RiskEngine.AdAnalysisIn) (tech : RiskEngine.TechnicalCheck)
    (h1 : content.risk_score = none) (h2 : ad.risk_score = none) :
    RiskEngine.fullComponents content ad tech none =
      [{ score := 1/2, weight := 1/4
         confidence := RiskEngine.contentConfidence content },
       { score := 1/2, weight := 7/20
         confidence := if ad.ad_count.getD 0 > 0 then 1 else 7/10 },
       { score := 1/2, weight := 1/4, confidence := 3/10 },
       { score := 1 - tech.health_score.getD 50 / 100, weight := 3/20
         confidence := 4/5 }]
    ∧ (RiskEngine.calculateScore content ad tech none "SUCCESS").scoring_mode
        = "full" := by
  constructor
  · simp [RiskEngine.fullComponents, h1, h2, RiskEngine.hasGamData]
  · rfl

/-- Witness for the amended C8 at a concrete input. -/
theorem claim_C8_default_half_substitution_witness :
    RiskEngine.fullComponents ⟨none, some 250, false⟩ ⟨none, some 0⟩ ⟨some 80⟩ none =
      [{ score := 1/2, weight := 1/4
         confidence := RiskEngine.contentConfidence ⟨none, some 250, false⟩ },
       { score := 1/2, weight := 7/20
         confidence := if (some 0 : Option ℕ).getD 0 > 0 then 1 else 7/10 },
       { score := 1/2, weight := 1/4, confidence := 3/10 },
       { score := 1 - (some (80:ℚ)).getD 50 / 100, weight := 3/20
         confidence := 4/5 }]
    ∧ (RiskEngine.calculateScore ⟨none, some 250, false⟩ ⟨none, some 0⟩ ⟨some 80⟩
        none "SUCCESS").scoring_mode = "full" :=
  claim_C8_default_half_substitution ⟨none, some 250, false⟩ ⟨none, some 0⟩
    ⟨some 80⟩ rfl rfl

/-- **C9, counterexample** — the risk-level cutoffs are not the uniform
`0.3`/`0.6` (`30`/`60`) the claim states: `AdAnalyzer` maps `0.35`
(which lies strictly between `0.3` and `0.6`) to `"low"`, not
`"medium"`, and `NetworkInterceptor` maps `65` (above `60`) to
`"medium"`, not `"high"`. -/
theorem claim_C9_counterexample :
    AdAnalyzer.getRiskLevel (7/20) = "low"
    ∧ AdAnalyzer.getRiskLevel (7/20) ≠ "medium"
    ∧ NetworkInterceptor.getRiskLevel 65 = "medium"
    ∧ NetworkInterceptor.getRiskLevel 65 ≠ "high" := by
  refine ⟨?_, ?_, ?_, ?_⟩ <;>
    norm_num [AdAnalyzer.getRiskLevel, NetworkInterceptor.getRiskLevel] <;>
    decide

/-- **C9, amended** — the per-component cutoffs, exactly: `RiskEngine`
uses `0.3`/`0.6` (`≤0.3` low, `≤0.6` medium, else high) and the scroll
heatmap uses `30`/`60` (`≥60` high, `≥30` medium, else low), but
`AdAnalyzer` uses `0.4`/`0.7` and `NetworkInterceptor` uses `40`/`70`;
the `0.3`/`0.6` cutoffs are not applied consistently across components. -/
theorem claim_C9_risk_level_cutoffs (q : ℚ) (n : ℕ) :
    (RiskEngine.getRiskLevel q = "low" ↔ q ≤ 3/10)
    ∧ (RiskEngine.getRiskLevel q = "medium" ↔ 3/10 < q ∧ q ≤ 6/10)
    ∧ (RiskEngine.getRiskLevel q = "high" ↔ 6/10 < q)
    ∧ (AdHeatmap.getRiskLevel n = "low" ↔ n < 30)
    ∧ (AdHeatmap.getRiskLevel n = "medium" ↔ 30 ≤ n ∧ n < 60)
    ∧ (AdHeatmap.getRiskLevel n = "high" ↔ 60 ≤ n)
    ∧ (AdAnalyzer.getRiskLevel q = "low" ↔ q < 2/5)
    ∧ (AdAnalyzer.getRiskLevel q = "medium" ↔ 2/5 ≤ q ∧ q < 7/10)
    ∧ (AdAnalyzer.getRiskLevel q = "high" ↔ 7/10 ≤ q)
    ∧ (NetworkInterceptor.getRiskLevel n = "low" ↔ n < 40)
    ∧ (NetworkInterceptor.getRiskLevel n = "medium" ↔ 40 ≤ n ∧ n < 70)
    ∧ (NetworkInterceptor.getRiskLevel n = "high" ↔ 70 ≤ n) := by
  unfold RiskEngine.getRiskLevel AdHeatmap.getRiskLevel
    AdAnalyzer.getRiskLevel NetworkInterceptor.getRiskLevel
  refine ⟨?_, ?_, ?_, ?_, ?_, ?_, ?_, ?_, ?_, ?_, ?_, ?_⟩ <;>
    split_ifs <;> simp_all <;> first | omega | linarith

/-- **C5, counterexample** — the count-contribution tier at ad count `3`
is `0`, not the `0.1` the claim states: the `>3` tier starts at 4 ads. -/
theorem claim_C5_counterexample :
    AdAnalyzer.countContribution 3 = 0 ∧ (0 : ℚ) ≠ 1/10 := by
  norm_num [AdAnalyzer.countContribution]

/-- **C5, amended** — the count-contribution tiers are `>10 → 0.3`,
`>6 → 0.2`, `>3 → 0.1`, so ad counts `3`, `7`, `11` contribute `0`,
`0.2`, `0.3` (not `0.1`, `0.2`, `0.3`); holding density and the detected
patterns fixed, the risk score still strictly increases across
`3 → 7 → 11`. -/
theorem claim_C5_count_tier_monotonicity (density : ℚ)
    (patterns : List AdAnalyzer.AdPattern) :
    AdAnalyzer.countContribution 3 = 0
    ∧ AdAnalyzer.countContribution 7 = 1/5
    ∧ AdAnalyzer.countContribution 11 = 3/10
    ∧ AdAnalyzer.calculateRiskScore 3 density patterns
        < AdAnalyzer.calculateRiskScore 7 density patterns
    ∧ AdAnalyzer.calculateRiskScore 7 density patterns
        < AdAnalyzer.calculateRiskScore 11 density patterns := by
  have h3 : AdAnalyzer.countContribution 3 = 0 := by
    norm_num [AdAnalyzer.countContribution]
  have h7 : AdAnalyzer.countContribution 7 = 1/5 := by
    norm_num [AdAnalyzer.countContribution]
  have h11 : AdAnalyzer.countContribution 11 = 3/10 := by
    norm_num [AdAnalyzer.countContribution]
  have mono : ∀ a₁ a₂ P : ℚ, a₁ < a₂ → a₂ ≤ 3/10 → P ≤ 2/5 →
      min (a₁ + min density (3/10) + P) 1 < min (a₂ + min density (3/10) + P) 1 := by
    intro a₁ a₂ P h1 h2 h3
    have hd := min_le_right density ((3:ℚ)/10)
    have e1 : min (a₁ + min density (3/10) + P) 1 = a₁ + min density (3/10) + P :=
      min_eq_left (by linarith)
    have e2 : min (a₂ + min density (3/10) + P) 1 = a₂ + min density (3/10) + P :=
      min_eq_left (by linarith)
    rw [e1, e2]
    linarith
  refine ⟨h3, h7, h11, ?_, ?_⟩
  · simp only [AdAnalyzer.calculateRiskScore]
    exact mono _ _ _ (by norm_num [h3, h7]) (by norm_num [h7])
      (min_le_right _ _)
  · simp only [AdAnalyzer.calculateRiskScore]
    exact mono _ _ _ (by norm_num [h7, h11]) (by norm_num [h11])
      (min_le_right _ _)

/-- **C6** — totality and values of the intersection-ratio computation:
zero-area and negative-dimension boxes yield `0`; empty clamped overlap
yields `0`; positive clamped overlap yields exactly
`intersection_area / element_area`; a positive-area box entirely inside
the viewport yields `1`; a box disjoint from the viewport yields `0`.
(The Lean embedding is a total function, mirroring that the source
raises on no input.) -/
theorem claim_C6_intersection_ratio (b : Viewability.BBox)
    (vp : Viewability.Viewport) :
    ((b.right - b.left) * (b.bottom - b.top) = 0 →
      Viewability.calcIntersectionRatio (some b) vp = 0)
    ∧ (b.right < b.left ∨ b.bottom < b.top →
      Viewability.calcIntersectionRatio (some b) vp = 0)
    ∧ (min b.bottom vp.height ≤ max b.top 0 ∨ min b.right vp.width ≤ max b.left 0 →
      Viewability.calcIntersectionRatio (some b) vp = 0)
    ∧ (max b.top 0 < min b.bottom vp.height → max b.left 0 < min b.right vp.width →
      Viewability.calcIntersectionRatio (some b) vp
        = ((min b.right vp.width - max b.left 0) * (min b.bottom vp.height - max b.top 0))
          / ((b.right - b.left) * (b.bottom - b.top)))
    ∧ (0 ≤ b.top → 0 ≤ b.left → b.bottom ≤ vp.height → b.right ≤ vp.width →
        b.top < b.bottom → b.left < b.right →
      Viewability.calcIntersectionRatio (some b) vp = 1)
    ∧ (b.bottom ≤ 0 ∨ vp.height ≤ b.top ∨ b.right ≤ 0 ∨ vp.width ≤ b.left →
      Viewability.calcIntersectionRatio (some b) vp = 0) := by
  have hguard : (max b.top 0 ≥ min b.bottom vp.height
        ∨ max b.left 0 ≥ min b.right vp.width) →
      Viewability.calcIntersectionRatio (some b) vp = 0 := by
    intro h
    simp only [Viewability.calcIntersectionRatio]
    rw [if_pos h]
  have hval : max b.top 0 < min b.bottom vp.height →
      max b.left 0 < min b.right vp.width →
      Viewability.calcIntersectionRatio (some b) vp
        = ((min b.right vp.width - max b.left 0) * (min b.bottom vp.height - max b.top 0))
          / ((b.right - b.left) * (b.bottom - b.top)) := by
    intro h1 h2
    have hG : ¬(max b.top 0 ≥ min b.bottom vp.height
        ∨ max b.left 0 ≥ min b.right vp.width) := by
      push_neg
      exact ⟨h1, h2⟩
    have htb : b.top < b.bottom :=
      lt_of_le_of_lt (le_max_left _ _) (lt_of_lt_of_le h1 (min_le_left _ _))
    have hlr : b.left < b.right :=
      lt_of_le_of_lt (le_max_left _ _) (lt_of_lt_of_le h2 (min_le_left _ _))
    have hA : (b.right - b.left) * (b.bottom - b.top) ≠ 0 :=
      ne_of_gt (mul_pos (by linarith) (by linarith))
    simp only [Viewability.calcIntersectionRatio]
    rw [if_neg hG, if_neg hA]
  refine ⟨?_, ?_, ?_, hval, ?_, ?_⟩
  · intro h
    by_cases hG : max b.top 0 ≥ min b.bottom vp.height
        ∨ max b.left 0 ≥ min b.right vp.width
    · exact hguard hG
    · simp only [Viewability.calcIntersectionRatio]
      rw [if_neg hG, if_pos h]
  · intro h
    refine hguard ?_
    rcases h with h | h
    · exact Or.inr (by
        have := le_max_left b.left (0:ℚ)
        have := min_le_left b.right vp.width
        linarith)
    · exact Or.inl (by
        have := le_max_left b.top (0:ℚ)
        have := min_le_left b.bottom vp.height
        linarith)
  · intro h
    exact hguard (by rcases h with h | h
                     · exact Or.inl h
                     · exact Or.inr h)
  · intro ht hl hb hr htb hlr
    rw [hval (by rw [max_eq_left ht, min_eq_left hb]; exact htb)
        (by rw [max_eq_left hl, min_eq_left hr]; exact hlr)]
    rw [max_eq_left ht, min_eq_left hb, max_eq_left hl, min_eq_left hr]
    rw [mul_comm]
    exact div_self (ne_of_gt (mul_pos (by linarith) (by linarith)))
  · intro h
    refine hguard ?_
    have hminb := min_le_left b.bottom vp.height
    have hminh := min_le_right b.bottom vp.height
    have hminr := min_le_left b.right vp.width
    have hminw := min_le_right b.right vp.width
    have hmaxt := le_max_left b.top (0:ℚ)
    have hmax0 := le_max_right b.top (0:ℚ)
    have hmaxl := le_max_left b.left (0:ℚ)
    have hmaxl0 := le_max_right b.left (0:ℚ)
    rcases h with h | h | h | h
    · exact Or.inl (by linarith)
    · exact Or.inl (by linarith)
    · exact Or.inr (by linarith)
    · exact Or.inr (by linarith)

/-- Witness for C6: a `100×100` box at the origin is fully viewable
(ratio `1`); a box past the viewport on both axes has ratio `0`. -/
theorem claim_C6_intersection_ratio_witness :
    Viewability.calcIntersectionRatio (some ⟨0, 0, 100, 100⟩) ⟨1920, 1080⟩ = 1
    ∧ Viewability.calcIntersectionRatio (some ⟨2000, 2000, 2100, 2100⟩) ⟨1920, 1080⟩ = 0 :=
  ⟨(claim_C6_intersection_ratio ⟨0, 0, 100, 100⟩ ⟨1920, 1080⟩).2.2.2.2.1
      (by norm_num) (by norm_num) (by norm_num) (by norm_num) (by norm_num) (by norm_num),
   (claim_C6_intersection_ratio ⟨2000, 2000, 2100, 2100⟩ ⟨1920, 1080⟩).2.2.2.2.2
      (Or.inr (Or.inl (by norm_num)))⟩

/-- **C7, counterexample** — an input with an empty ad-element list but an
aggressive ad script among the page's scripts yields risk score `0.15`,
not the `0` the claim demands for every empty-ad-list input. -/
theorem claim_C7_counterexample :
    (AdAnalyzer.analyze [] 0 0 ["https://cdn.popads.net/pop.js"] []
        0 0 1080).risk_score = 3/20
    ∧ (3/20 : ℚ) ≠ 0 := by
  have hr0 : ∀ k, roundQ k 0 = 0 := fun k => roundQ_exact k 0 0 (by norm_num)
  have hpat : AdAnalyzer.detectSuspiciousPatterns 0 0
      ["https://cdn.popads.net/pop.js"] 0 = [⟨"aggressive_ad_script", "high"⟩] := by
    decide
  have hdm : AdAnalyzer.calculateDensity 0 [] 0 0 1080
      = ⟨0, 0, 0, 0, false⟩ := by
    simp only [AdAnalyzer.calculateDensity]
    norm_num [hr0]
  have hrs : AdAnalyzer.calculateRiskScore 0 0
      [⟨"aggressive_ad_script", "high"⟩] = 3/20 := by
    simp only [AdAnalyzer.calculateRiskScore, AdAnalyzer.countContribution]
    simp [List.filter_cons, List.filter_nil]
    norm_num [min_def]
  refine ⟨?_, by norm_num⟩
  simp only [AdAnalyzer.analyze, List.length_nil, hpat, hdm]
  norm_num [AdAnalyzer.analyzeVideoPlayers, hrs, min_def]
  exact roundQ_exact 2 (3/20) 15 (by norm_num)

/-- **C7, amended** — for every input whose ad-element list is empty and
whose scripts contain no aggressive ad-script marker and which has no
video elements, `AdAnalyzer.analyze` returns risk score `0`, density
`0`, layout risk `0` and risk level `"low"` (stacked-ad and ad-request
counts are irrelevant there); and for every input with an empty ad list
`ViewabilityChecker.analyze` returns the empty result with
`mrc_compliant = true`.  Both embeddings are total functions. -/
theorem claim_C7_empty_input (stacked adReq totalElements textLength : ℕ)
    (scripts : List String) (vh minRatio : ℚ) (vp : Viewability.Viewport)
    (hs : ∀ sc ∈ scripts, (AdAnalyzer.aggressiveScripts.any
        (fun a => AdAnalyzer.containsSub (AdAnalyzer.strToLower sc) a)) = false) :
    (AdAnalyzer.analyze [] stacked adReq scripts [] totalElements textLength
        vh).risk_score = 0
    ∧ (AdAnalyzer.analyze [] stacked adReq scripts [] totalElements textLength
        vh).density.ad_density = 0
    ∧ (AdAnalyzer.analyze [] stacked adReq scripts [] totalElements textLength
        vh).layout_risk = 0
    ∧ (AdAnalyzer.analyze [] stacked adReq scripts [] totalElements textLength
        vh).risk_level = "low"
    ∧ Viewability.analyze minRatio [] vp = Viewability.emptyResult
    ∧ (Viewability.analyze minRatio [] vp).mrc_compliant = true := by
  have hr0 : ∀ k, roundQ k 0 = 0 := fun k => roundQ_exact k 0 0 (by norm_num)
  have hdm : AdAnalyzer.calculateDensity 0 [] totalElements textLength vh
      = ⟨0, 0, 0, 0, false⟩ := by
    simp only [AdAnalyzer.calculateDensity]
    norm_num [hr0]
  have hpat : AdAnalyzer.detectSuspiciousPatterns 0 adReq scripts stacked
      = if stacked > 0 then [⟨"ad_stacking", "critical"⟩] else [] := by
    simp only [AdAnalyzer.detectSuspiciousPatterns]
    have h4 : scripts.filterMap (fun sc =>
        if AdAnalyzer.aggressiveScripts.any
            (fun a => AdAnalyzer.containsSub (AdAnalyzer.strToLower sc) a) then
          some (⟨"aggressive_ad_script", "high"⟩ : AdAnalyzer.AdPattern)
        else none) = [] := by
      rw [List.filterMap_eq_nil_iff]
      intro sc hsc
      rw [hs sc hsc]
      simp
    rw [h4]
    norm_num
  have hrisk : AdAnalyzer.calculateRiskScore 0 0
      (AdAnalyzer.detectSuspiciousPatterns 0 adReq scripts stacked) = 0 := by
    rw [hpat]
    by_cases h : stacked > 0 <;>
      simp [h, AdAnalyzer.calculateRiskScore, AdAnalyzer.countContribution,
        List.filter] <;>
      norm_num [min_def]
  refine ⟨?_, ?_, ?_, ?_, rfl, rfl⟩
  · simp only [AdAnalyzer.analyze, List.length_nil, hdm, hrisk]
    norm_num [AdAnalyzer.analyzeVideoPlayers, min_def, hr0]
  · simp only [AdAnalyzer.analyze, List.length_nil, hdm]
  · simp [AdAnalyzer.analyze, AdAnalyzer.calculateLayoutRisk, hr0]
  · simp only [AdAnalyzer.analyze, List.length_nil, hdm, hrisk]
    norm_num [AdAnalyzer.analyzeVideoPlayers, min_def, AdAnalyzer.getRiskLevel]

/-- Witness for the amended C7 at a concrete input. -/
theorem claim_C7_empty_input_witness :
    (AdAnalyzer.analyze [] 1 5 ["https://example.com/analytics.js"] []
        20 500 1080).risk_score = 0
    ∧ (AdAnalyzer.analyze [] 1 5 ["https://example.com/analytics.js"] []
        20 500 1080).density.ad_density = 0
    ∧ (AdAnalyzer.analyze [] 1 5 ["https://example.com/analytics.js"] []
        20 500 1080).layout_risk = 0
    ∧ (AdAnalyzer.analyze [] 1 5 ["https://example.com/analytics.js"] []
        20 500 1080).risk_level = "low"
    ∧ Viewability.analyze (1/2) [] Viewability.defaultViewport
        = Viewability.emptyResult
    ∧ (Viewability.analyze (1/2) [] Viewability.defaultViewport).mrc_compliant
        = true :=
  claim_C7_empty_input 1 5 20 500 ["https://example.com/analytics.js"]
    1080 (1/2) Viewability.defaultViewport (by decide)

/-- **C4** — for every categorized request stream, the 0–100 network risk
score equals the base tier from ad-request volume plus the fixed
per-pattern-type additions of the claim's schedule over the detected
suspicious patterns, capped at `100`. -/
theorem claim_C4_network_risk_score (st : NetworkInterceptor.NetState) :
    NetworkInterceptor.calculateNetworkRiskScore st
        (NetworkInterceptor.detectSuspiciousPatterns st)
      = min 100 (Spec.netBaseTier st.adRequestNetworks.length
          + ((NetworkInterceptor.detectSuspiciousPatterns st).map
              Spec.netPatternPoints).sum) := by
  have hstep : ∀ (pats : List NetworkInterceptor.NetPattern) (init : ℕ),
      pats.foldl (fun s p =>
        if p.ptype = "AUTO_REFRESH_ADS" then
          s + (if p.severity = "HIGH" then 40 else 25)
        else if p.ptype = "EXCESSIVE_AD_CALLS" then
          s + (if p.severity = "HIGH" then 30 else 15)
        else if p.ptype = "MULTIPLE_PREBID_AUCTIONS" then s + 10
        else if p.ptype = "EXCESSIVE_VIDEO_ADS" then s + 15
        else if p.ptype = "FRAGMENTED_AD_STACK" then s + 5
        else s) init = init + (pats.map Spec.netPatternPoints).sum := by
    intro pats
    induction pats with
    | nil => intro init; simp
    | cons p ps ih =>
      intro init
      simp only [List.foldl_cons, List.map_cons, List.sum_cons, ih]
      have hb : (if p.ptype = "AUTO_REFRESH_ADS" then
            init + (if p.severity = "HIGH" then 40 else 25)
          else if p.ptype = "EXCESSIVE_AD_CALLS" then
            init + (if p.severity = "HIGH" then 30 else 15)
          else if p.ptype = "MULTIPLE_PREBID_AUCTIONS" then init + 10
          else if p.ptype = "EXCESSIVE_VIDEO_ADS" then init + 15
          else if p.ptype = "FRAGMENTED_AD_STACK" then init + 5
          else init) = init + Spec.netPatternPoints p := by
        simp only [Spec.netPatternPoints]
        split_ifs <;> omega
      rw [hb]
      omega
  simp only [NetworkInterceptor.calculateNetworkRiskScore]
  rw [hstep]
  rfl

/-- The interval list of a timing list has one fewer element. -/
theorem length_intervalsOf (ts : List ℚ) :
    (NetworkInterceptor.intervalsOf ts).length = ts.length - 1 := by
  simp only [NetworkInterceptor.intervalsOf, NetworkInterceptor.sortAsc]
  rw [List.length_map, List.length_zip, List.length_tail,
    List.length_insertionSort]
  omega

/-- In an association list with distinct keys, two entries with the same
key are the same entry. -/
theorem eq_of_mem_nodup_keys {β : Type} {m : List (String × β)}
    (hnd : (m.map Prod.fst).Nodup) {p q : String × β}
    (hp : p ∈ m) (hq : q ∈ m) (h : p.1 = q.1) : p = q := by
  induction m with
  | nil => cases hp
  | cons a as ih =>
    rw [List.map_cons, List.nodup_cons] at hnd
    rcases List.mem_cons.mp hp with hpa | hpas <;>
      rcases List.mem_cons.mp hq with hqa | hqas
    · rw [hpa, hqa]
    · subst hpa
      exact absurd (by rw [h]; exact List.mem_map_of_mem Prod.fst hqas) hnd.1
    · subst hqa
      exact absurd (by rw [← h]; exact List.mem_map_of_mem Prod.fst hpas) hnd.1
    · exact ih hnd.2 hpas hqas

/-- Closed form of the per-domain refresh analysis once the domain has at
least two timings. -/
theorem flagSeverity_eq (ts : List ℚ) (hlen : 2 ≤ ts.length) :
    NetworkInterceptor.flagSeverity ts =
      if NetworkInterceptor.minIntervalOf ts < 30000
          ∨ NetworkInterceptor.avgIntervalOf ts < 60000 then
        some (if NetworkInterceptor.minIntervalOf ts < 15000 then "HIGH"
              else "MEDIUM")
      else none := by
  have hne : NetworkInterceptor.intervalsOf ts ≠ [] := by
    have h := length_intervalsOf ts
    intro hcon
    rw [hcon] at h
    simp at h
    omega
  simp only [NetworkInterceptor.flagSeverity, NetworkInterceptor.minIntervalOf,
    NetworkInterceptor.avgIntervalOf]
  rw [if_neg (by omega : ¬ ts.length < 2), if_neg hne]

/-- **C3** — auto-refresh detection: a domain with at least two
ad-request timestamps is flagged iff, after sorting its timestamps
ascending and taking consecutive differences, `min(interval) < 30000` or
`avg(interval) < 60000`, with severity `"HIGH"` exactly when
`min(interval) < 15000` and `"MEDIUM"` otherwise; in particular two
requests to one domain at `t=0` and `t=10000` ms yield a HIGH flag, and
two at `t=0` and `t=90000` ms yield no flag. -/
theorem claim_C3_refresh_detection (m : List (String × List ℚ))
    (hnd : (m.map Prod.fst).Nodup) (d : String) (ts : List ℚ)
    (hmem : (d, ts) ∈ m) (hlen : 2 ≤ ts.length) :
    (d ∈ NetworkInterceptor.flaggedDomains m ↔
      (NetworkInterceptor.minIntervalOf ts < 30000
        ∨ NetworkInterceptor.avgIntervalOf ts < 60000))
    ∧ (NetworkInterceptor.flagSeverity ts = some "HIGH" ↔
        NetworkInterceptor.minIntervalOf ts < 15000)
    ∧ (NetworkInterceptor.flagSeverity ts = some "MEDIUM" ↔
        ((NetworkInterceptor.minIntervalOf ts < 30000
            ∨ NetworkInterceptor.avgIntervalOf ts < 60000)
          ∧ ¬ NetworkInterceptor.minIntervalOf ts < 15000))
    ∧ NetworkInterceptor.analyzeRefreshPatterns
        (NetworkInterceptor.buildRefreshPatterns
          [("cdn.adnet.example", 0), ("cdn.adnet.example", 10000)])
      = ⟨true, 1, [⟨"cdn.adnet.example", 10000, 10000, 2, "HIGH"⟩]⟩
    ∧ NetworkInterceptor.analyzeRefreshPatterns
        (NetworkInterceptor.buildRefreshPatterns
          [("cdn.adnet.example", 0), ("cdn.adnet.example", 90000)])
      = ⟨false, 0, []⟩ := by
  refine ⟨?_, ?_, ?_, ?_, ?_⟩
  · constructor
    · intro hdm2
      obtain ⟨flag, hflag, hdom⟩ := List.mem_map.mp hdm2
      obtain ⟨p, hp, hfp⟩ := List.mem_filterMap.mp hflag
      cases hsev : NetworkInterceptor.flagSeverity p.2 with
      | none => rw [hsev] at hfp; simp at hfp
      | some sev =>
        rw [hsev] at hfp
        simp only [Option.map_some', Option.some.injEq] at hfp
        have hp1 : p.1 = (d, ts).1 := by
          rw [← hfp] at hdom
          exact hdom
        have hpd : p = (d, ts) := eq_of_mem_nodup_keys hnd hp hmem hp1
        rw [hpd] at hsev
        rw [flagSeverity_eq ts hlen] at hsev
        by_cases hc : NetworkInterceptor.minIntervalOf ts < 30000
            ∨ NetworkInterceptor.avgIntervalOf ts < 60000
        · exact hc
        · rw [if_neg hc] at hsev
          cases hsev
    · intro hcond
      refine List.mem_map.mpr
        ⟨{ domain := d
           avg_interval_ms := roundQ 0 (NetworkInterceptor.avgIntervalOf ts)
           min_interval_ms := roundQ 0 (NetworkInterceptor.minIntervalOf ts)
           request_count := ts.length
           severity := if NetworkInterceptor.minIntervalOf ts < 15000 then "HIGH"
                       else "MEDIUM" }, ?_, rfl⟩
      refine List.mem_filterMap.mpr ⟨(d, ts), hmem, ?_⟩
      show (NetworkInterceptor.flagSeverity ts).map _ = _
      rw [flagSeverity_eq ts hlen, if_pos hcond]
      rfl
  · rw [flagSeverity_eq ts hlen]
    split_ifs with h1 h2
    · simp [h2]
    · simp [h2]
    · simp only [reduceCtorEq, false_iff]
      intro hlt
      exact h1 (Or.inl (by linarith))
  · rw [flagSeverity_eq ts hlen]
    split_ifs with h1 h2
    · simp [h1, h2]
    · simp [h1, h2]
    · simp [h1]
  · have hb : NetworkInterceptor.buildRefreshPatterns
        [("cdn.adnet.example", 0), ("cdn.adnet.example", 10000)]
        = [("cdn.adnet.example", [0, 10000])] := by
      simp [NetworkInterceptor.buildRefreshPatterns,
        NetworkInterceptor.trackRefreshPattern]
    have hsort : NetworkInterceptor.sortAsc [(0:ℚ), 10000] = [0, 10000] := by
      norm_num [NetworkInterceptor.sortAsc, List.insertionSort,
        List.orderedInsert]
    have hiv : NetworkInterceptor.intervalsOf [(0:ℚ), 10000] = [10000] := by
      simp only [NetworkInterceptor.intervalsOf, hsort, List.tail_cons,
        List.zip_cons_cons, List.zip_nil_right, List.map_cons, List.map_nil]
      norm_num
    have hmin : NetworkInterceptor.minIntervalOf [(0:ℚ), 10000] = 10000 := by
      simp [NetworkInterceptor.minIntervalOf, hiv, NetworkInterceptor.listMinQ]
    have havg : NetworkInterceptor.avgIntervalOf [(0:ℚ), 10000] = 10000 := by
      simp [NetworkInterceptor.avgIntervalOf, hiv]
    have hfs : NetworkInterceptor.flagSeverity [(0:ℚ), 10000] = some "HIGH" := by
      rw [flagSeverity_eq _ (by simp), hmin, havg]
      norm_num
    have hrq : roundQ 0 (10000:ℚ) = 10000 := roundQ_exact 0 10000 10000 (by norm_num)
    rw [hb]
    simp [NetworkInterceptor.analyzeRefreshPatterns,
      NetworkInterceptor.suspiciousRefreshes, hfs, hmin, havg, hrq]
  · have hb : NetworkInterceptor.buildRefreshPatterns
        [("cdn.adnet.example", 0), ("cdn.adnet.example", 90000)]
        = [("cdn.adnet.example", [0, 90000])] := by
      simp [NetworkInterceptor.buildRefreshPatterns,
        NetworkInterceptor.trackRefreshPattern]
    have hsort : NetworkInterceptor.sortAsc [(0:ℚ), 90000] = [0, 90000] := by
      norm_num [NetworkInterceptor.sortAsc, List.insertionSort,
        List.orderedInsert]
    have hiv : NetworkInterceptor.intervalsOf [(0:ℚ), 90000] = [90000] := by
      simp only [NetworkInterceptor.intervalsOf, hsort, List.tail_cons,
        List.zip_cons_cons, List.zip_nil_right, List.map_cons, List.map_nil]
      norm_num
    have hmin : NetworkInterceptor.minIntervalOf [(0:ℚ), 90000] = 90000 := by
      simp [NetworkInterceptor.minIntervalOf, hiv, NetworkInterceptor.listMinQ]
    have havg : NetworkInterceptor.avgIntervalOf [(0:ℚ), 90000] = 90000 := by
      simp [NetworkInterceptor.avgIntervalOf, hiv]
    have hfs : NetworkInterceptor.flagSeverity [(0:ℚ), 90000] = none := by
      rw [flagSeverity_eq _ (by simp), hmin, havg]
      norm_num
    rw [hb]
    simp [NetworkInterceptor.analyzeRefreshPatterns,
      NetworkInterceptor.suspiciousRefreshes, hfs]

/-- Witness for C3: the single-domain map with timings `0` and `10000`. -/
theorem claim_C3_refresh_detection_witness :
    ("cdn.adnet.example" ∈ NetworkInterceptor.flaggedDomains
        [("cdn.adnet.example", [0, 10000])] ↔
      (NetworkInterceptor.minIntervalOf [(0:ℚ), 10000] < 30000
        ∨ NetworkInterceptor.avgIntervalOf [(0:ℚ), 10000] < 60000)) :=
  (claim_C3_refresh_detection [("cdn.adnet.example", [0, 10000])]
    (by simp) "cdn.adnet.example" [0, 10000] (by simp) (by simp)).1
